import Mathlib

/-!
# terraform-provider-sendgrid: the `sendgrid_template_version` resource

A shallow embedding of `sendgrid/resource_sendgrid_template_version.go`.

Modelling conventions.

* A Go `string` is a Lean `String`; its bytes (`[]byte(s)`) are the UTF-8
  encoding of the Lean string.
* A Go `error` is represented by its text (`err.Error()`), so
  `fmt.Errorf("p: %s", err.Error())` is the text `"p: " ++ err`.
* `*schema.ResourceData` is a record of the schema's fields plus the id;
  `d.Set` / `d.SetId` are record updates and `d.Get` / `d.Id` are projections.
* The remote client, the file system and the home-directory expansion are
  external collaborators and are parameters of every operation.  Every remote
  call is recorded in a call log, so that "no remote call was made" can be
  stated.
* `fmt.Println` / `fmt.Printf` only write to standard output and are omitted.
-/

set_option maxRecDepth 100000

namespace Sendgrid

/-! ## `crypto/sha256` and `encoding/base64`

`getHash` calls the Go standard library for SHA-256 and base64.  Those
packages are not part of the repository; they are given here by the
algorithms they implement (FIPS 180-4 and RFC 4648) and checked against known
digests in the test vectors below. -/

/-- Modelled from the spec: the round constants of SHA-256 (the Go standard
library package `crypto/sha256` is not part of the repository; the spec names
the digest as SHA-256, FIPS 180-4). -/
def sha256K : List Nat :=
  [0x428a2f98, 0x71374491, 0xb5c0fbcf, 0xe9b5dba5, 0x3956c25b, 0x59f111f1, 0x923f82a4, 0xab1c5ed5,
   0xd807aa98, 0x12835b01, 0x243185be, 0x550c7dc3, 0x72be5d74, 0x80deb1fe, 0x9bdc06a7, 0xc19bf174,
   0xe49b69c1, 0xefbe4786, 0x0fc19dc6, 0x240ca1cc, 0x2de92c6f, 0x4a7484aa, 0x5cb0a9dc, 0x76f988da,
   0x983e5152, 0xa831c66d, 0xb00327c8, 0xbf597fc7, 0xc6e00bf3, 0xd5a79147, 0x06ca6351, 0x14292967,
   0x27b70a85, 0x2e1b2138, 0x4d2c6dfc, 0x53380d13, 0x650a7354, 0x766a0abb, 0x81c2c92e, 0x92722c85,
   0xa2bfe8a1, 0xa81a664b, 0xc24b8b70, 0xc76c51a3, 0xd192e819, 0xd6990624, 0xf40e3585, 0x106aa070,
   0x19a4c116, 0x1e376c08, 0x2748774c, 0x34b0bcb5, 0x391c0cb3, 0x4ed8aa4a, 0x5b9cca4f, 0x682e6ff3,
   0x748f82ee, 0x78a5636f, 0x84c87814, 0x8cc70208, 0x90befffa, 0xa4506ceb, 0xbef9a3f7, 0xc67178f2]

/-- Modelled from the spec: the eight 32-bit chaining words `h[0..7]` of a
SHA-256 digest state (also used for the working variables `a..h` of a block). -/
structure Sha256State where
  h0 : Nat
  h1 : Nat
  h2 : Nat
  h3 : Nat
  h4 : Nat
  h5 : Nat
  h6 : Nat
  h7 : Nat
  deriving DecidableEq, Repr

/-- Modelled from the spec: the initial chaining value of SHA-256 (FIPS 180-4,
5.3.3), as set by `sha256.New()`. -/
def sha256Init : Sha256State :=
  ⟨0x6a09e667, 0xbb67ae85, 0x3c6ef372, 0xa54ff53a, 0x510e527f, 0x9b05688c, 0x1f83d9ab, 0x5be0cd19⟩

/-- Modelled from the spec: wrap-around addition of `uint32`, as used by
SHA-256. -/
def add32 (a b : Nat) : Nat := (a + b) % 2 ^ 32

/-- Modelled from the spec: rotate right on `uint32`
(`bits.RotateLeft32(x, -n)`), for `0 < n < 32`. -/
def rotr32 (x n : Nat) : Nat := ((x >>> n) ||| (x <<< (32 - n))) % 2 ^ 32

/-- Modelled from the spec: bitwise complement on `uint32`. -/
def not32 (x : Nat) : Nat := (x % 2 ^ 32) ^^^ 0xffffffff

/-- Modelled from the spec: the function `Ch` of FIPS 180-4. -/
def sha256Ch (x y z : Nat) : Nat := (x &&& y) ^^^ (not32 x &&& z)

/-- Modelled from the spec: the function `Maj` of FIPS 180-4. -/
def sha256Maj (x y z : Nat) : Nat := (x &&& y) ^^^ (x &&& z) ^^^ (y &&& z)

/-- Modelled from the spec: the function `Σ0` of FIPS 180-4. -/
def bigSigma0 (x : Nat) : Nat := rotr32 x 2 ^^^ rotr32 x 13 ^^^ rotr32 x 22

/-- Modelled from the spec: the function `Σ1` of FIPS 180-4. -/
def bigSigma1 (x : Nat) : Nat := rotr32 x 6 ^^^ rotr32 x 11 ^^^ rotr32 x 25

/-- Modelled from the spec: the function `σ0` of FIPS 180-4. -/
def smallSigma0 (x : Nat) : Nat := rotr32 x 7 ^^^ rotr32 x 18 ^^^ (x >>> 3)

/-- Modelled from the spec: the function `σ1` of FIPS 180-4. -/
def smallSigma1 (x : Nat) : Nat := rotr32 x 17 ^^^ rotr32 x 19 ^^^ (x >>> 10)

/-- Modelled from the spec: big-endian `uint32` words of a byte sequence, four
bytes per word. -/
def beWords : List Nat → List Nat
  | a :: b :: c :: d :: rest =>
      (a % 256 * 2 ^ 24 + b % 256 * 2 ^ 16 + c % 256 * 2 ^ 8 + d % 256) :: beWords rest
  | _ => []

/-- Modelled from the spec: extends the SHA-256 message schedule by `n` words.
The schedule is kept newest first: with `w[t-1]` at the head, `w[t]` is
`σ1(w[t-2]) + w[t-7] + σ0(w[t-15]) + w[t-16]`. -/
def scheduleExtend : Nat → List Nat → List Nat
  | 0, ws => ws
  | n + 1, ws =>
      let w := add32 (add32 (add32 (smallSigma1 (ws.getD 1 0)) (ws.getD 6 0))
        (smallSigma0 (ws.getD 14 0))) (ws.getD 15 0)
      scheduleExtend n (w :: ws)

/-- Modelled from the spec: the 64-word message schedule `w[0..63]` of a
64-byte block. -/
def schedule (block : List Nat) : List Nat :=
  (scheduleExtend 48 (beWords block).reverse).reverse

/-- Modelled from the spec: one round of the SHA-256 compression function with
round constant `k` and schedule word `w`. -/
def sha256Round (s : Sha256State) (k w : Nat) : Sha256State :=
  let t1 := add32 (add32 (add32 (add32 s.h7 (bigSigma1 s.h4)) (sha256Ch s.h4 s.h5 s.h6)) k) w
  let t2 := add32 (bigSigma0 s.h0) (sha256Maj s.h0 s.h1 s.h2)
  ⟨add32 t1 t2, s.h0, s.h1, s.h2, add32 s.h3 t1, s.h4, s.h5, s.h6⟩

/-- Modelled from the spec: the rounds of one block, over the paired round
constants and schedule words. -/
def sha256Rounds : Sha256State → List (Nat × Nat) → Sha256State
  | s, [] => s
  | s, (k, w) :: rest => sha256Rounds (sha256Round s k w) rest

/-- Modelled from the spec: processes one 64-byte block, 64 rounds and then
the feed-forward addition. -/
def sha256Block (s : Sha256State) (block : List Nat) : Sha256State :=
  let r := sha256Rounds s (sha256K.zip (schedule block))
  ⟨add32 s.h0 r.h0, add32 s.h1 r.h1, add32 s.h2 r.h2, add32 s.h3 r.h3,
   add32 s.h4 r.h4, add32 s.h5 r.h5, add32 s.h6 r.h6, add32 s.h7 r.h7⟩

/-- Modelled from the spec: processes `n` consecutive 64-byte blocks of
`bytes`. -/
def sha256Blocks : Nat → Sha256State → List Nat → Sha256State
  | 0, s, _ => s
  | n + 1, s, bytes => sha256Blocks n (sha256Block s (bytes.take 64)) (bytes.drop 64)

/-- Modelled from the spec: big-endian bytes of a `uint64`. -/
def be64 (n : Nat) : List Nat :=
  [n / 2 ^ 56 % 256, n / 2 ^ 48 % 256, n / 2 ^ 40 % 256, n / 2 ^ 32 % 256,
   n / 2 ^ 24 % 256, n / 2 ^ 16 % 256, n / 2 ^ 8 % 256, n % 256]

/-- Modelled from the spec: the padded message of SHA-256, the byte `0x80`,
zero bytes up to 56 modulo 64, and the bit length as a big-endian `uint64`. -/
def sha256Pad (msg : List Nat) : List Nat :=
  msg ++ 0x80 :: List.replicate ((119 - msg.length % 64) % 64) 0 ++ be64 (msg.length * 8 % 2 ^ 64)

/-- Modelled from the spec: big-endian bytes of a `uint32`. -/
def be32 (w : Nat) : List Nat :=
  [w / 2 ^ 24 % 256, w / 2 ^ 16 % 256, w / 2 ^ 8 % 256, w % 256]

/-- Modelled from the spec: the 32 bytes of a digest state. -/
def sha256Bytes (s : Sha256State) : List Nat :=
  be32 s.h0 ++ be32 s.h1 ++ be32 s.h2 ++ be32 s.h3 ++
  be32 s.h4 ++ be32 s.h5 ++ be32 s.h6 ++ be32 s.h7

/-- Modelled from the spec: the final chaining state after writing `msg` and
padding. -/
def sha256Final (msg : List Nat) : Sha256State :=
  let padded := sha256Pad msg
  sha256Blocks (padded.length / 64) sha256Init padded

/-- Modelled from the spec: `sha := sha256.New(); sha.Write(msg); sha.Sum(nil)`
of the Go standard library (not part of the repository), the SHA-256 digest
of a byte sequence as 32 bytes. -/
def sha256Sum (msg : List Nat) : List Nat := sha256Bytes (sha256Final msg)

/-- Modelled from the spec: the alphabet of `base64.StdEncoding` (RFC 4648). -/
def encodeStd : List Char :=
  "ABCDEFGHIJKLMNOPQRSTUVWXYZabcdefghijklmnopqrstuvwxyz0123456789+/".data

/-- Modelled from the spec: the character of a 6-bit value in the standard
base64 alphabet. -/
def b64Char (v : Nat) : Char := encodeStd.getD (v % 64) 'A'

/-- Modelled from the spec: `base64.StdEncoding.EncodeToString` of the Go
standard library (not part of the repository): three bytes give four
characters, and a final group of one or two bytes is padded with `=`. -/
def base64Encode : List Nat → List Char
  | a :: b :: c :: rest =>
      let v := a % 256 * 2 ^ 16 + b % 256 * 2 ^ 8 + c % 256
      b64Char (v / 2 ^ 18) :: b64Char (v / 2 ^ 12) :: b64Char (v / 2 ^ 6) :: b64Char v ::
        base64Encode rest
  | [a, b] =>
      let v := a % 256 * 2 ^ 16 + b % 256 * 2 ^ 8
      [b64Char (v / 2 ^ 18), b64Char (v / 2 ^ 12), b64Char (v / 2 ^ 6), '=']
  | [a] =>
      let v := a % 256 * 2 ^ 16
      [b64Char (v / 2 ^ 18), b64Char (v / 2 ^ 12), '=', '=']
  | [] => []

/-- The bytes of a Go string, `[]byte(data)`. -/
def stringBytes (data : String) : List Nat :=
  data.data.flatMap fun c => (String.utf8EncodeChar c).map UInt8.toNat

/-- The function `getHash`: the standard base64 text of the SHA-256 digest of
the string. -/
def getHash (data : String) : String :=
  String.mk (base64Encode (sha256Sum (stringBytes data)))

/-! ## Data model -/

/-- The fields of `sendgrid_client.TemplateVersion` that the resource uses. -/
structure TemplateVersion where
  Id : String
  TemplateId : String
  Name : String
  Subject : String
  HtmlContent : String
  PlainContent : String
  Active : Int
  deriving DecidableEq, Repr

/-- The value behind `*schema.ResourceData`: the resource id and the fields of
the schema of `resourceSendgridTemplateVersion`. -/
structure ResourceData where
  id : String
  template_id : String
  name : String
  subject : String
  html_content_file : String
  plain_content_file : String
  html_content_hash : String
  plain_content_hash : String
  active : Bool
  deriving DecidableEq, Repr

/-- The schema default of `html_content_hash`. -/
def htmlContentHashDefault : String := "different hash - html"

/-- The schema default of `plain_content_hash`. -/
def plainContentHashDefault : String := "different hash - plain"

/-- The file-system collaborators: `homedir.Expand`, `ioutil.ReadFile` and the
error result of `os.Stat` (`none` is `nil`). -/
structure FileSystem where
  Expand : String → Except String String
  ReadFile : String → Except String String
  Stat : String → Option String

/-- The remote client `*sendgrid_client.Client` over a remote store of type
`σ`; every call may fail with an error and may change the store. -/
structure Client (σ : Type) where
  GetTemplateVersion : String → String → σ → Except String TemplateVersion × σ
  CreateTemplateVersion : TemplateVersion → σ → Except String TemplateVersion × σ
  UpdateTemplateVersion : String → TemplateVersion → σ → Option String × σ
  DeleteTemplateVersion : String → String → σ → Option String × σ

/-- A call made on the remote client. -/
inductive RemoteCall where
  | getTemplateVersion (templateId id : String)
  | createTemplateVersion (m : TemplateVersion)
  | updateTemplateVersion (id : String) (m : TemplateVersion)
  | deleteTemplateVersion (templateId id : String)
  deriving DecidableEq, Repr

/-- The remote store together with the log of the calls made on it. -/
structure Remote (σ : Type) where
  store : σ
  calls : List RemoteCall

/-- The call `client.GetTemplateVersion(templateId, id)`, logged. -/
def callGet {σ : Type} (client : Client σ) (templateId id : String) (r : Remote σ) :
    Except String TemplateVersion × Remote σ :=
  ((client.GetTemplateVersion templateId id r.store).1,
   ⟨(client.GetTemplateVersion templateId id r.store).2,
    r.calls ++ [RemoteCall.getTemplateVersion templateId id]⟩)

/-- The call `client.CreateTemplateVersion(m)`, logged. -/
def callCreate {σ : Type} (client : Client σ) (m : TemplateVersion) (r : Remote σ) :
    Except String TemplateVersion × Remote σ :=
  ((client.CreateTemplateVersion m r.store).1,
   ⟨(client.CreateTemplateVersion m r.store).2, r.calls ++ [RemoteCall.createTemplateVersion m]⟩)

/-- The call `client.UpdateTemplateVersion(id, m)`, logged. -/
def callUpdate {σ : Type} (client : Client σ) (id : String) (m : TemplateVersion)
    (r : Remote σ) : Option String × Remote σ :=
  ((client.UpdateTemplateVersion id m r.store).1,
   ⟨(client.UpdateTemplateVersion id m r.store).2,
    r.calls ++ [RemoteCall.updateTemplateVersion id m]⟩)

/-- The call `client.DeleteTemplateVersion(templateId, id)`, logged. -/
def callDelete {σ : Type} (client : Client σ) (templateId id : String) (r : Remote σ) :
    Option String × Remote σ :=
  ((client.DeleteTemplateVersion templateId id r.store).1,
   ⟨(client.DeleteTemplateVersion templateId id r.store).2,
    r.calls ++ [RemoteCall.deleteTemplateVersion templateId id]⟩)

/-- Modelled from the spec: the test `strings.Contains(s, substr)` of the Go
standard library, whether `substr` occurs in `s` as a contiguous run. -/
def stringsContains (s substr : String) : Bool :=
  s.data.tails.any fun t => substr.data.isPrefixOf t

/-! ## File helpers -/

/-- The function `loadFileContent`: the contents of the file at a path. -/
def loadFileContent (fs : FileSystem) (v : String) : Except String String :=
  match fs.Expand v with
  | .error err => .error err
  | .ok filename =>
    match fs.ReadFile filename with
    | .error err => .error err
    | .ok fileContent => .ok fileContent

/-- The function `existsFileContent`: the error of checking that a file
exists (`none` is `nil`). -/
def existsFileContent (fs : FileSystem) (v : String) : Option String :=
  match fs.Expand v with
  | .error err => some err
  | .ok filename => fs.Stat filename

/-! ## Diff suppression -/

/-- The `DiffSuppressFunc` of `html_content_hash`; `.error err` is
`panic(err)`. -/
def htmlContentHashDiffSuppressFunc (fs : FileSystem) (_k old _new : String)
    (d : ResourceData) : Except String Bool :=
  match loadFileContent fs d.html_content_file with
  | .error err => .error err
  | .ok htmlContent =>
    let localSha256Sum := getHash htmlContent
    if localSha256Sum == "" then .ok false
    else if old != localSha256Sum then .ok false
    else .ok true

/-- The `DiffSuppressFunc` of `plain_content_hash`; `.error err` is
`panic(err)`. -/
def plainContentHashDiffSuppressFunc (fs : FileSystem) (_k old _new : String)
    (d : ResourceData) : Except String Bool :=
  match loadFileContent fs d.plain_content_file with
  | .error err => .error err
  | .ok textContent =>
    let localSha256Sum := getHash textContent
    if localSha256Sum == "" then .ok false
    else if old != localSha256Sum then .ok false
    else .ok true

/-! ## Lifecycle operations -/

/-- The function `buildTemplateVersionStruct`; `.error err` is `(nil, err)`. -/
def buildTemplateVersionStruct (fs : FileSystem) (d : ResourceData) :
    Except String TemplateVersion :=
  match loadFileContent fs d.html_content_file with
  | .error err => .error err
  | .ok htmlContent =>
    match loadFileContent fs d.plain_content_file with
    | .error err => .error err
    | .ok plainContent =>
      let active : Int := if d.active then 1 else 0
      .ok { Id := ""
            TemplateId := d.template_id
            Name := d.name
            Subject := d.subject
            HtmlContent := htmlContent
            PlainContent := plainContent
            Active := active }

/-- The function `resourceSendgridTemplateVersionExists`: the pair `(b, e)`
and the remote store afterwards. -/
def resourceSendgridTemplateVersionExists {σ : Type} (client : Client σ) (d : ResourceData)
    (r : Remote σ) : (Bool × Option String) × Remote σ :=
  match (callGet client d.template_id d.id r).1 with
  | .error err =>
    if stringsContains err "404 Not Found" then
      ((false, none), (callGet client d.template_id d.id r).2)
    else
      ((false, some ("error checking template_version: " ++ err)),
       (callGet client d.template_id d.id r).2)
  | .ok _ => ((true, none), (callGet client d.template_id d.id r).2)

/-- The function `resourceSendgridTemplateVersionCreate`: the returned error,
the resource data and the remote store afterwards. -/
def resourceSendgridTemplateVersionCreate {σ : Type} (fs : FileSystem) (client : Client σ)
    (d : ResourceData) (r : Remote σ) : Option String × ResourceData × Remote σ :=
  match buildTemplateVersionStruct fs d with
  | .error err => (some err, d, r)
  | .ok m =>
    match (callCreate client m r).1 with
    | .error err =>
      (some ("error creating template_version: " ++ err), d, (callCreate client m r).2)
    | .ok m' =>
      (none,
       { d with id := m'.Id
                html_content_hash := getHash m'.HtmlContent
                plain_content_hash := getHash m'.PlainContent },
       (callCreate client m r).2)

/-- The function `resourceSendgridTemplateVersionRead`. -/
def resourceSendgridTemplateVersionRead {σ : Type} (fs : FileSystem) (client : Client σ)
    (d : ResourceData) (r : Remote σ) : Option String × ResourceData × Remote σ :=
  match existsFileContent fs d.html_content_file with
  | some err => (some err, d, r)
  | none =>
    match existsFileContent fs d.plain_content_file with
    | some err => (some err, d, r)
    | none =>
      match (callGet client d.template_id d.id r).1 with
      | .error err =>
        (some ("error reading template_version: " ++ err), d,
         (callGet client d.template_id d.id r).2)
      | .ok m =>
        let remoteHTMLHash := getHash m.HtmlContent
        let remotePlainHash := getHash m.PlainContent
        (none,
         { d with html_content_hash := remoteHTMLHash
                  plain_content_hash := remotePlainHash },
         (callGet client d.template_id d.id r).2)

/-- The function `resourceSendgridTemplateVersionUpdate`. -/
def resourceSendgridTemplateVersionUpdate {σ : Type} (fs : FileSystem) (client : Client σ)
    (d : ResourceData) (r : Remote σ) : Option String × ResourceData × Remote σ :=
  match buildTemplateVersionStruct fs d with
  | .error err => (some err, d, r)
  | .ok m =>
    match (callUpdate client d.id m r).1 with
    | some err =>
      (some ("error updating TemplateVersion: " ++ err), d, (callUpdate client d.id m r).2)
    | none =>
      resourceSendgridTemplateVersionRead fs client
        { d with html_content_hash := getHash m.HtmlContent
                 plain_content_hash := getHash m.PlainContent }
        (callUpdate client d.id m r).2

/-- The function `resourceSendgridTemplateVersionDelete`. -/
def resourceSendgridTemplateVersionDelete {σ : Type} (client : Client σ) (d : ResourceData)
    (r : Remote σ) : Option String × ResourceData × Remote σ :=
  match (callDelete client d.template_id d.id r).1 with
  | some err =>
    (some ("error deleting TemplateVersion: " ++ err), d,
     (callDelete client d.template_id d.id r).2)
  | none =>
    (none, { d with html_content_hash := "", plain_content_hash := "" },
     (callDelete client d.template_id d.id r).2)

/-- The function `resourceSendgridTemplateVersionImport`: the returned list
(`[]` is `nil`) and error, the resource data and the remote store
afterwards. -/
def resourceSendgridTemplateVersionImport {σ : Type} (client : Client σ) (d : ResourceData)
    (r : Remote σ) : (List ResourceData × Option String) × ResourceData × Remote σ :=
  match (callGet client d.template_id d.id r).1 with
  | .error err =>
    (([], some ("error reading template_version: " ++ err)), d,
     (callGet client d.template_id d.id r).2)
  | .ok m =>
    let remoteHTMLHash := getHash m.HtmlContent
    let remotePlainHash := getHash m.PlainContent
    let d' := { d with html_content_hash := remoteHTMLHash
                       plain_content_hash := remotePlainHash }
    (([d'], none), d', (callGet client d.template_id d.id r).2)

/-! ## Example collaborators

Concrete file systems and clients on which the theorems below are
instantiated. -/

/-- A file system with the two files `html.txt` and `plain.txt`. -/
def twoFiles (html plain : String) : FileSystem where
  Expand v := .ok v
  ReadFile f :=
    if f = "html.txt" then .ok html
    else if f = "plain.txt" then .ok plain
    else .error ("open " ++ f ++ ": no such file or directory")
  Stat f :=
    if f = "html.txt" ∨ f = "plain.txt" then none
    else some ("stat " ++ f ++ ": no such file or directory")

/-- A remote store holding a list of template versions.  On create it
assigns the id `v1` and stores the html content with a newline appended (a
store that normalises content); it answers `404 Not Found` for an unknown
key. -/
def listClient : Client (List TemplateVersion) where
  GetTemplateVersion templateId id store :=
    match store.find? fun m => m.TemplateId == templateId && m.Id == id with
    | some m => (.ok m, store)
    | none => (.error "sendgrid: 404 Not Found", store)
  CreateTemplateVersion m store :=
    let m' := { m with Id := "v1", HtmlContent := m.HtmlContent ++ "\n" }
    (.ok m', m' :: store)
  UpdateTemplateVersion id m store :=
    if store.any fun x => x.Id == id then
      (none, store.map fun x => if x.Id == id then { m with Id := id } else x)
    else (some "sendgrid: 404 Not Found", store)
  DeleteTemplateVersion templateId id store :=
    if store.any fun m => m.TemplateId == templateId && m.Id == id then
      (none, store.filter fun m => !(m.TemplateId == templateId && m.Id == id))
    else (some "sendgrid: 404 Not Found", store)

/-- A remote store that is unavailable: every call fails. -/
def downClient : Client Unit where
  GetTemplateVersion _ _ s := (.error "500 Internal Server Error", s)
  CreateTemplateVersion _ s := (.error "500 Internal Server Error", s)
  UpdateTemplateVersion _ _ s := (some "500 Internal Server Error", s)
  DeleteTemplateVersion _ _ s := (some "500 Internal Server Error", s)

/-- A declaration of a template version with files `html.txt` and
`plain.txt` and no prior state. -/
def freshData : ResourceData where
  id := ""
  template_id := "t1"
  name := "welcome"
  subject := "Hi"
  html_content_file := "html.txt"
  plain_content_file := "plain.txt"
  html_content_hash := htmlContentHashDefault
  plain_content_hash := plainContentHashDefault
  active := true

/-- The declaration `freshData` with an html content file that is not on
disk. -/
def missingHtmlData : ResourceData :=
  { freshData with html_content_file := "gone.txt" }

/-- The declaration `freshData` after a create that stored the id `v1` and
the digest of "Hello" for both fields. -/
def syncedData : ResourceData :=
  { freshData with
    id := "v1"
    html_content_hash := "GF+NsyJx/iX1Yab8k4suJkMG7DBO2lGAB9F2SCY4GWk="
    plain_content_hash := "GF+NsyJx/iX1Yab8k4suJkMG7DBO2lGAB9F2SCY4GWk=" }

/-- A file system with a home directory: `~/html.txt` and `~/plain.txt`
expand to files under `/home/alice`, the path `~bob/html.txt` and the path
`~bob/plain.txt` cannot be expanded, and every other path expands to
itself.  Only the two files under `/home/alice` exist. -/
def homeFiles (html plain : String) : FileSystem where
  Expand v :=
    if v = "~/html.txt" then .ok "/home/alice/html.txt"
    else if v = "~/plain.txt" then .ok "/home/alice/plain.txt"
    else if v = "~bob/html.txt" ∨ v = "~bob/plain.txt" then
      .error "cannot expand user-specific home dir"
    else .ok v
  ReadFile f :=
    if f = "/home/alice/html.txt" then .ok html
    else if f = "/home/alice/plain.txt" then .ok plain
    else .error ("open " ++ f ++ ": no such file or directory")
  Stat f :=
    if f = "/home/alice/html.txt" ∨ f = "/home/alice/plain.txt" then none
    else some ("stat " ++ f ++ ": no such file or directory")

/-- A declaration whose two content files are given with the home-directory
shorthand. -/
def homeData : ResourceData :=
  { freshData with html_content_file := "~/html.txt", plain_content_file := "~/plain.txt",
                   active := false }

/-- The declaration `homeData` with an html path that cannot be expanded. -/
def unexpandableHtmlData : ResourceData :=
  { homeData with html_content_file := "~bob/html.txt" }

/-- The declaration `homeData` with an html path that expands to itself and
is not on disk. -/
def unreadableHtmlData : ResourceData :=
  { homeData with html_content_file := "gone.txt" }

/-- The declaration `homeData` with a plain path that cannot be expanded. -/
def unexpandablePlainData : ResourceData :=
  { homeData with plain_content_file := "~bob/plain.txt" }

/-- The declaration `homeData` with a plain path that expands to itself and
is not on disk. -/
def unreadablePlainData : ResourceData :=
  { homeData with plain_content_file := "gone.txt" }

/-- The declaration `freshData` with the id `v1` of a remote object and no
digest stored yet, as handed to import. -/
def unsyncedData : ResourceData :=
  { freshData with id := "v1" }

/-- A template version as held by the remote store. -/
def storedVersion : TemplateVersion where
  Id := "v1"
  TemplateId := "t1"
  Name := "welcome"
  Subject := "Hi"
  HtmlContent := "Hello"
  PlainContent := "Hello"
  Active := 1

/-- The object built from `syncedData` once `html.txt` was edited to
"Hello!". -/
def editedVersion : TemplateVersion where
  Id := ""
  TemplateId := "t1"
  Name := "welcome"
  Subject := "Hi"
  HtmlContent := "Hello!"
  PlainContent := "Hello"
  Active := 1

/-! ## Facts about `getHash` -/

theorem sha256Bytes_length (s : Sha256State) : (sha256Bytes s).length = 32 := by
  simp [sha256Bytes, be32]

theorem getHash_data_length (data : String) : (getHash data).data.length = 44 := by
  simp [getHash, sha256Sum, sha256Bytes, be32, base64Encode]

theorem getHash_length (data : String) : (getHash data).length = 44 :=
  getHash_data_length data

theorem getHash_ne_empty (data : String) : getHash data ≠ "" := by
  intro h
  have h44 := getHash_length data
  rw [h] at h44
  exact absurd h44 (by decide)

theorem getHash_beq_empty (data : String) : (getHash data == "") = false := by
  simpa using getHash_ne_empty data

theorem b64Char_mem (v : Nat) : b64Char v ∈ encodeStd := by
  have hlt : v % 64 < encodeStd.length := by
    have : encodeStd.length = 64 := by decide
    omega
  unfold b64Char
  rw [List.getD_eq_getElem _ _ hlt]
  exact List.getElem_mem hlt

theorem base64Encode_mem (l : List Nat) :
    ∀ ch ∈ base64Encode l, ch ∈ encodeStd ∨ ch = '=' := by
  induction l using base64Encode.induct with
  | case1 a b c rest ih =>
    intro ch hch
    simp only [base64Encode, List.mem_cons] at hch
    rcases hch with h | h | h | h | h
    · exact Or.inl (h ▸ b64Char_mem _)
    · exact Or.inl (h ▸ b64Char_mem _)
    · exact Or.inl (h ▸ b64Char_mem _)
    · exact Or.inl (h ▸ b64Char_mem _)
    · exact ih ch h
  | case2 a b =>
    intro ch hch
    simp only [base64Encode, List.mem_cons, List.not_mem_nil, or_false] at hch
    rcases hch with h | h | h | h
    · exact Or.inl (h ▸ b64Char_mem _)
    · exact Or.inl (h ▸ b64Char_mem _)
    · exact Or.inl (h ▸ b64Char_mem _)
    · exact Or.inr h
  | case3 a =>
    intro ch hch
    simp only [base64Encode, List.mem_cons, List.not_mem_nil, or_false] at hch
    rcases hch with h | h | h | h
    · exact Or.inl (h ▸ b64Char_mem _)
    · exact Or.inl (h ▸ b64Char_mem _)
    · exact Or.inr h
    · exact Or.inr h
  | case4 =>
    intro ch hch
    simp [base64Encode] at hch

theorem htmlDiffSuppress_of_load (fs : FileSystem) (k old new : String) (d : ResourceData)
    (c : String) (h : loadFileContent fs d.html_content_file = .ok c) :
    htmlContentHashDiffSuppressFunc fs k old new d = .ok (decide (old = getHash c)) := by
  simp only [htmlContentHashDiffSuppressFunc, h, getHash_beq_empty]
  by_cases ho : old = getHash c <;> simp [ho]

theorem plainDiffSuppress_of_load (fs : FileSystem) (k old new : String) (d : ResourceData)
    (c : String) (h : loadFileContent fs d.plain_content_file = .ok c) :
    plainContentHashDiffSuppressFunc fs k old new d = .ok (decide (old = getHash c)) := by
  simp only [plainContentHashDiffSuppressFunc, h, getHash_beq_empty]
  by_cases ho : old = getHash c <;> simp [ho]

theorem stringsContains_iff (s substr : String) :
    stringsContains s substr = true ↔ substr.data <:+: s.data := by
  simp only [stringsContains, List.any_eq_true, List.isPrefixOf_iff_prefix, List.mem_tails]
  rw [List.infix_iff_prefix_suffix]
  constructor
  · rintro ⟨t, ht, hp⟩
    exact ⟨t, hp, ht⟩
  · rintro ⟨t, hp, ht⟩
    exact ⟨t, ht, hp⟩

theorem be32_mod (w : Nat) : be32 (w % 2 ^ 32) = be32 w := by
  simp only [be32]
  norm_num
  refine ⟨?_, ?_, ?_⟩ <;> omega

theorem sha256Bytes_congr (s t : Sha256State)
    (h0 : s.h0 % 2 ^ 32 = t.h0 % 2 ^ 32) (h1 : s.h1 % 2 ^ 32 = t.h1 % 2 ^ 32)
    (h2 : s.h2 % 2 ^ 32 = t.h2 % 2 ^ 32) (h3 : s.h3 % 2 ^ 32 = t.h3 % 2 ^ 32)
    (h4 : s.h4 % 2 ^ 32 = t.h4 % 2 ^ 32) (h5 : s.h5 % 2 ^ 32 = t.h5 % 2 ^ 32)
    (h6 : s.h6 % 2 ^ 32 = t.h6 % 2 ^ 32) (h7 : s.h7 % 2 ^ 32 = t.h7 % 2 ^ 32) :
    sha256Bytes s = sha256Bytes t := by
  unfold sha256Bytes
  rw [← be32_mod s.h0, ← be32_mod s.h1, ← be32_mod s.h2, ← be32_mod s.h3,
    ← be32_mod s.h4, ← be32_mod s.h5, ← be32_mod s.h6, ← be32_mod s.h7,
    h0, h1, h2, h3, h4, h5, h6, h7,
    be32_mod t.h0, be32_mod t.h1, be32_mod t.h2, be32_mod t.h3,
    be32_mod t.h4, be32_mod t.h5, be32_mod t.h6, be32_mod t.h7]

/-- The digest takes finitely many values on infinitely many strings, so two
different strings have the same digest. -/
theorem getHash_collision : ∃ A B : String, A ≠ B ∧ getHash A = getHash B := by
  have hpos : ∀ n : Nat, n % 2 ^ 32 < 2 ^ 32 := fun n => Nat.mod_lt _ (by norm_num)
  obtain ⟨A, B, hne, heq⟩ := Finite.exists_ne_map_eq_of_infinite
    (fun s : String =>
      ((⟨(sha256Final (stringBytes s)).h0 % 2 ^ 32, hpos _⟩ : Fin (2 ^ 32)),
       (⟨(sha256Final (stringBytes s)).h1 % 2 ^ 32, hpos _⟩ : Fin (2 ^ 32)),
       (⟨(sha256Final (stringBytes s)).h2 % 2 ^ 32, hpos _⟩ : Fin (2 ^ 32)),
       (⟨(sha256Final (stringBytes s)).h3 % 2 ^ 32, hpos _⟩ : Fin (2 ^ 32)),
       (⟨(sha256Final (stringBytes s)).h4 % 2 ^ 32, hpos _⟩ : Fin (2 ^ 32)),
       (⟨(sha256Final (stringBytes s)).h5 % 2 ^ 32, hpos _⟩ : Fin (2 ^ 32)),
       (⟨(sha256Final (stringBytes s)).h6 % 2 ^ 32, hpos _⟩ : Fin (2 ^ 32)),
       (⟨(sha256Final (stringBytes s)).h7 % 2 ^ 32, hpos _⟩ : Fin (2 ^ 32))))
  refine ⟨A, B, hne, ?_⟩
  simp only [Prod.mk.injEq, Fin.mk.injEq] at heq
  obtain ⟨e0, e1, e2, e3, e4, e5, e6, e7⟩ := heq
  unfold getHash sha256Sum
  rw [sha256Bytes_congr _ _ e0 e1 e2 e3 e4 e5 e6 e7]

/-- A path that cannot be expanded cannot be loaded: the error of
`homedir.Expand` is returned. -/
theorem loadFileContent_of_expand_error (fs : FileSystem) (v err : String)
    (h : fs.Expand v = .error err) : loadFileContent fs v = .error err := by
  simp [loadFileContent, h]

/-- A path that expands to a file that cannot be read cannot be loaded: the
error of `ioutil.ReadFile` on the expanded path is returned. -/
theorem loadFileContent_of_read_error (fs : FileSystem) (v filename err : String)
    (h : fs.Expand v = .ok filename) (hr : fs.ReadFile filename = .error err) :
    loadFileContent fs v = .error err := by
  simp [loadFileContent, h, hr]

/-- A path that expands to a readable file loads the whole content that
`ioutil.ReadFile` gives for the expanded path. -/
theorem loadFileContent_of_read_ok (fs : FileSystem) (v filename content : String)
    (h : fs.Expand v = .ok filename) (hr : fs.ReadFile filename = .ok content) :
    loadFileContent fs v = .ok content := by
  simp [loadFileContent, h, hr]

/-- Loading succeeds exactly when the path expands and the expanded file is
read. -/
theorem loadFileContent_eq_ok_iff (fs : FileSystem) (v content : String) :
    loadFileContent fs v = .ok content ↔
      ∃ filename, fs.Expand v = .ok filename ∧ fs.ReadFile filename = .ok content := by
  unfold loadFileContent
  cases he : fs.Expand v with
  | error e => simp
  | ok filename =>
    cases hr : fs.ReadFile filename with
    | error e => simp [hr]
    | ok c => simp [hr]

/-- Loading fails exactly when the path cannot be expanded, or expands to a
file that cannot be read; the error is the one of the failing step. -/
theorem loadFileContent_eq_error_iff (fs : FileSystem) (v err : String) :
    loadFileContent fs v = .error err ↔
      fs.Expand v = .error err ∨
      ∃ filename, fs.Expand v = .ok filename ∧ fs.ReadFile filename = .error err := by
  unfold loadFileContent
  cases he : fs.Expand v with
  | error e => simp
  | ok filename =>
    cases hr : fs.ReadFile filename with
    | error e => simp [hr]
    | ok c => simp [hr]

/-- A path that cannot be expanded counts as a missing file. -/
theorem existsFileContent_of_expand_error (fs : FileSystem) (v err : String)
    (h : fs.Expand v = .error err) : existsFileContent fs v = some err := by
  simp [existsFileContent, h]

/-- A path that expands to a file on which `os.Stat` fails counts as a
missing file. -/
theorem existsFileContent_of_stat_error (fs : FileSystem) (v filename err : String)
    (h : fs.Expand v = .ok filename) (hs : fs.Stat filename = some err) :
    existsFileContent fs v = some err := by
  simp [existsFileContent, h, hs]

/-! ## Test vectors for `getHash` -/

theorem getHash_empty : getHash "" = "47DEQpj8HBSa+/TImW+5JCeuQeRkm5NMpJWZG3hSuFU=" := by
  decide

theorem getHash_abc : getHash "abc" = "ungWv48Bz+pBQUDeXa4iI7ADYaOWF3qctBD/YfIAFa0=" := by
  decide

theorem getHash_Hello : getHash "Hello" = "GF+NsyJx/iX1Yab8k4suJkMG7DBO2lGAB9F2SCY4GWk=" := by
  decide

theorem getHash_two_blocks :
    getHash "aaaaaaaaaaaaaaaaaaaaaaaaaaaaaaaaaaaaaaaaaaaaaaaaaaaaaaaa" =
      "s1Q5pKxvCUi21vnjxq8PX1kM4g8b3nCQ73lwaG7Gc4o=" := by
  decide

/-! ## The claims -/

/-- C1: for both content fields, for every stored digest `old` and every
readable local file content `c`, the `DiffSuppressFunc` returns true if and
only if `old` is not the empty string and equals `getHash c`; in particular
it returns false when `old` is the empty string. -/
theorem diffSuppress_iff_nonempty_and_equal (fs : FileSystem) (k old new : String)
    (d : ResourceData) (c : String) :
    (loadFileContent fs d.html_content_file = .ok c →
      htmlContentHashDiffSuppressFunc fs k old new d
        = .ok (decide (old ≠ "" ∧ old = getHash c)) ∧
      htmlContentHashDiffSuppressFunc fs k "" new d = .ok false) ∧
    (loadFileContent fs d.plain_content_file = .ok c →
      plainContentHashDiffSuppressFunc fs k old new d
        = .ok (decide (old ≠ "" ∧ old = getHash c)) ∧
      plainContentHashDiffSuppressFunc fs k "" new d = .ok false) := by
  have key : ∀ o : String, decide (o = getHash c) = decide (o ≠ "" ∧ o = getHash c) := by
    intro o
    by_cases ho : o = getHash c
    · have hne : o ≠ "" := ho ▸ getHash_ne_empty c
      simp [ho, hne]
      exact fun h => hne (ho ▸ h)
    · simp [ho]
  have hemp : decide (("" : String) = getHash c) = false := by
    have := (getHash_ne_empty c).symm
    simpa using this
  constructor
  · intro h
    exact ⟨by rw [htmlDiffSuppress_of_load fs k old new d c h, key],
      by rw [htmlDiffSuppress_of_load fs k "" new d c h, hemp]⟩
  · intro h
    exact ⟨by rw [plainDiffSuppress_of_load fs k old new d c h, key],
      by rw [plainDiffSuppress_of_load fs k "" new d c h, hemp]⟩

/-- Witness of C1 on the files `html.txt` = "Hello" and `plain.txt` = "World",
with the stored digest of "Hello". -/
theorem diffSuppress_iff_nonempty_and_equal_witness :
    (loadFileContent (twoFiles "Hello" "World") freshData.html_content_file = .ok "Hello" ∧
      htmlContentHashDiffSuppressFunc (twoFiles "Hello" "World") "html_content_hash"
          "GF+NsyJx/iX1Yab8k4suJkMG7DBO2lGAB9F2SCY4GWk=" "" freshData
        = .ok (decide ("GF+NsyJx/iX1Yab8k4suJkMG7DBO2lGAB9F2SCY4GWk=" ≠ "" ∧
            "GF+NsyJx/iX1Yab8k4suJkMG7DBO2lGAB9F2SCY4GWk=" = getHash "Hello")) ∧
      htmlContentHashDiffSuppressFunc (twoFiles "Hello" "World") "html_content_hash"
          "" "" freshData = .ok false) ∧
    (loadFileContent (twoFiles "Hello" "World") freshData.plain_content_file = .ok "World" ∧
      plainContentHashDiffSuppressFunc (twoFiles "Hello" "World") "plain_content_hash"
          "GF+NsyJx/iX1Yab8k4suJkMG7DBO2lGAB9F2SCY4GWk=" "" freshData
        = .ok (decide ("GF+NsyJx/iX1Yab8k4suJkMG7DBO2lGAB9F2SCY4GWk=" ≠ "" ∧
            "GF+NsyJx/iX1Yab8k4suJkMG7DBO2lGAB9F2SCY4GWk=" = getHash "World")) ∧
      plainContentHashDiffSuppressFunc (twoFiles "Hello" "World") "plain_content_hash"
          "" "" freshData = .ok false) :=
  ⟨⟨rfl, (diffSuppress_iff_nonempty_and_equal (twoFiles "Hello" "World") "html_content_hash"
      "GF+NsyJx/iX1Yab8k4suJkMG7DBO2lGAB9F2SCY4GWk=" "" freshData "Hello").1 rfl⟩,
   ⟨rfl, (diffSuppress_iff_nonempty_and_equal (twoFiles "Hello" "World") "plain_content_hash"
      "GF+NsyJx/iX1Yab8k4suJkMG7DBO2lGAB9F2SCY4GWk=" "" freshData "World").2 rfl⟩⟩

/-- C8: for every content string `s`, `getHash s` is a 44-character string
over the standard base64 alphabet and `=`, hence differs from both schema
defaults `"different hash - html"` and `"different hash - plain"`; so for
every readable local file content `s` the `DiffSuppressFunc` of either field
returns false when the stored digest is one of the two defaults. -/
theorem default_hash_never_suppresses (s : String) :
    ((getHash s).length = 44 ∧ ∀ ch ∈ (getHash s).data, ch ∈ encodeStd ∨ ch = '=') ∧
    (getHash s ≠ htmlContentHashDefault ∧ getHash s ≠ plainContentHashDefault) ∧
    ∀ (fs : FileSystem) (k old new : String) (d : ResourceData),
      old = htmlContentHashDefault ∨ old = plainContentHashDefault →
      (loadFileContent fs d.html_content_file = .ok s →
        htmlContentHashDiffSuppressFunc fs k old new d = .ok false) ∧
      (loadFileContent fs d.plain_content_file = .ok s →
        plainContentHashDiffSuppressFunc fs k old new d = .ok false) := by
  have hlen := getHash_length s
  have hh : getHash s ≠ htmlContentHashDefault := by
    intro h
    rw [h] at hlen
    exact absurd hlen (by decide)
  have hp : getHash s ≠ plainContentHashDefault := by
    intro h
    rw [h] at hlen
    exact absurd hlen (by decide)
  refine ⟨⟨hlen, ?_⟩, ⟨hh, hp⟩, ?_⟩
  · intro ch hch
    exact base64Encode_mem _ ch hch
  · intro fs k old new d hold
    have hne : old ≠ getHash s := by
      rcases hold with h | h
      · exact h ▸ hh.symm
      · exact h ▸ hp.symm
    constructor
    · intro h
      rw [htmlDiffSuppress_of_load fs k old new d s h]
      simp [hne]
    · intro h
      rw [plainDiffSuppress_of_load fs k old new d s h]
      simp [hne]

/-- Witness of C8 on a fresh declaration whose files both hold "Hello". -/
theorem default_hash_never_suppresses_witness :
    (freshData.html_content_hash = htmlContentHashDefault ∨
      freshData.html_content_hash = plainContentHashDefault) ∧
    loadFileContent (twoFiles "Hello" "Hello") freshData.html_content_file = .ok "Hello" ∧
    htmlContentHashDiffSuppressFunc (twoFiles "Hello" "Hello") "html_content_hash"
      freshData.html_content_hash "" freshData = .ok false :=
  ⟨Or.inl rfl, rfl,
   ((default_hash_never_suppresses "Hello").2.2 (twoFiles "Hello" "Hello") "html_content_hash"
      freshData.html_content_hash "" freshData (Or.inl rfl)).1 rfl⟩

/-- C10: for every configuration, `buildTemplateVersionStruct` returns an
error and no object if either content file cannot be resolved or read, the
html file being tried first: the error of `homedir.Expand` on the html path;
else the error of `ioutil.ReadFile` on the expanded html path; else, the html
file being read, the error of `homedir.Expand` on the plain path; else the
error of `ioutil.ReadFile` on the expanded plain path.  Otherwise it returns
a `TemplateVersion` whose `TemplateId`, `Name` and `Subject` are the
configured ones, whose `HtmlContent` and `PlainContent` are the whole contents
read from the two expanded paths, and whose `Active` is 1 for an active flag
of true and 0 for false. -/
theorem buildTemplateVersionStruct_spec (fs : FileSystem) (d : ResourceData) :
    (∀ err, fs.Expand d.html_content_file = .error err →
      buildTemplateVersionStruct fs d = .error err) ∧
    (∀ htmlFile err, fs.Expand d.html_content_file = .ok htmlFile →
      fs.ReadFile htmlFile = .error err →
      buildTemplateVersionStruct fs d = .error err) ∧
    (∀ htmlFile html err, fs.Expand d.html_content_file = .ok htmlFile →
      fs.ReadFile htmlFile = .ok html →
      fs.Expand d.plain_content_file = .error err →
      buildTemplateVersionStruct fs d = .error err) ∧
    (∀ htmlFile html plainFile err, fs.Expand d.html_content_file = .ok htmlFile →
      fs.ReadFile htmlFile = .ok html →
      fs.Expand d.plain_content_file = .ok plainFile →
      fs.ReadFile plainFile = .error err →
      buildTemplateVersionStruct fs d = .error err) ∧
    (∀ htmlFile html plainFile plain, fs.Expand d.html_content_file = .ok htmlFile →
      fs.ReadFile htmlFile = .ok html →
      fs.Expand d.plain_content_file = .ok plainFile →
      fs.ReadFile plainFile = .ok plain →
      ∃ m, buildTemplateVersionStruct fs d = .ok m ∧
        m.TemplateId = d.template_id ∧ m.Name = d.name ∧ m.Subject = d.subject ∧
        m.HtmlContent = html ∧ m.PlainContent = plain ∧
        (d.active = true → m.Active = 1) ∧ (d.active = false → m.Active = 0)) := by
  refine ⟨?_, ?_, ?_, ?_, ?_⟩
  · intro err he
    simp [buildTemplateVersionStruct, loadFileContent, he]
  · intro htmlFile err he hr
    simp [buildTemplateVersionStruct, loadFileContent, he, hr]
  · intro htmlFile html err he hr hpe
    simp [buildTemplateVersionStruct, loadFileContent, he, hr, hpe]
  · intro htmlFile html plainFile err he hr hpe hpr
    simp [buildTemplateVersionStruct, loadFileContent, he, hr, hpe, hpr]
  · intro htmlFile html plainFile plain he hr hpe hpr
    refine ⟨⟨"", d.template_id, d.name, d.subject, html, plain, if d.active then 1 else 0⟩,
      by simp only [buildTemplateVersionStruct, loadFileContent, he, hr, hpe, hpr],
      rfl, rfl, rfl, rfl, rfl, ?_, ?_⟩
    · intro ha
      simp [ha]
    · intro ha
      simp [ha]

/-- Witness of C10 on a file system with a home directory: an html path that
cannot be expanded, an html file that cannot be read, a plain path that
cannot be expanded, a plain file that cannot be read, and two paths that
expand to readable files. -/
theorem buildTemplateVersionStruct_spec_witness :
    ((homeFiles "Hello" "World").Expand unexpandableHtmlData.html_content_file
        = .error "cannot expand user-specific home dir" ∧
      buildTemplateVersionStruct (homeFiles "Hello" "World") unexpandableHtmlData
        = .error "cannot expand user-specific home dir") ∧
    ((homeFiles "Hello" "World").Expand unreadableHtmlData.html_content_file = .ok "gone.txt" ∧
      (homeFiles "Hello" "World").ReadFile "gone.txt"
        = .error "open gone.txt: no such file or directory" ∧
      buildTemplateVersionStruct (homeFiles "Hello" "World") unreadableHtmlData
        = .error "open gone.txt: no such file or directory") ∧
    ((homeFiles "Hello" "World").Expand unexpandablePlainData.html_content_file
        = .ok "/home/alice/html.txt" ∧
      (homeFiles "Hello" "World").ReadFile "/home/alice/html.txt" = .ok "Hello" ∧
      (homeFiles "Hello" "World").Expand unexpandablePlainData.plain_content_file
        = .error "cannot expand user-specific home dir" ∧
      buildTemplateVersionStruct (homeFiles "Hello" "World") unexpandablePlainData
        = .error "cannot expand user-specific home dir") ∧
    ((homeFiles "Hello" "World").Expand unreadablePlainData.html_content_file
        = .ok "/home/alice/html.txt" ∧
      (homeFiles "Hello" "World").ReadFile "/home/alice/html.txt" = .ok "Hello" ∧
      (homeFiles "Hello" "World").Expand unreadablePlainData.plain_content_file
        = .ok "gone.txt" ∧
      (homeFiles "Hello" "World").ReadFile "gone.txt"
        = .error "open gone.txt: no such file or directory" ∧
      buildTemplateVersionStruct (homeFiles "Hello" "World") unreadablePlainData
        = .error "open gone.txt: no such file or directory") ∧
    ((homeFiles "Hello" "World").Expand homeData.html_content_file
        = .ok "/home/alice/html.txt" ∧
      (homeFiles "Hello" "World").ReadFile "/home/alice/html.txt" = .ok "Hello" ∧
      (homeFiles "Hello" "World").Expand homeData.plain_content_file
        = .ok "/home/alice/plain.txt" ∧
      (homeFiles "Hello" "World").ReadFile "/home/alice/plain.txt" = .ok "World" ∧
      ∃ m, buildTemplateVersionStruct (homeFiles "Hello" "World") homeData = .ok m ∧
        m.TemplateId = homeData.template_id ∧ m.Name = homeData.name ∧
        m.Subject = homeData.subject ∧
        m.HtmlContent = "Hello" ∧ m.PlainContent = "World" ∧
        (homeData.active = true → m.Active = 1) ∧ (homeData.active = false → m.Active = 0)) :=
  ⟨⟨rfl,
    (buildTemplateVersionStruct_spec (homeFiles "Hello" "World") unexpandableHtmlData).1
      _ rfl⟩,
   ⟨rfl, rfl,
    (buildTemplateVersionStruct_spec (homeFiles "Hello" "World") unreadableHtmlData).2.1
      _ _ rfl rfl⟩,
   ⟨rfl, rfl, rfl,
    (buildTemplateVersionStruct_spec (homeFiles "Hello" "World") unexpandablePlainData).2.2.1
      _ _ _ rfl rfl rfl⟩,
   ⟨rfl, rfl, rfl, rfl,
    (buildTemplateVersionStruct_spec (homeFiles "Hello" "World") unreadablePlainData).2.2.2.1
      _ _ _ _ rfl rfl rfl rfl⟩,
   ⟨rfl, rfl, rfl, rfl,
    (buildTemplateVersionStruct_spec (homeFiles "Hello" "World") homeData).2.2.2.2
      _ _ _ _ rfl rfl rfl rfl⟩⟩

/-- C2 as stated fails: for a remote error whose text is
"500 Internal Server Error" (no "404 Not Found" in it), exists does not
return `(false, err)` with that error, it returns false with a new error whose
text is "error checking template_version: 500 Internal Server Error". -/
theorem exists_wraps_remote_error :
    (downClient.GetTemplateVersion syncedData.template_id syncedData.id ()).1
      = .error "500 Internal Server Error" ∧
    stringsContains "500 Internal Server Error" "404 Not Found" = false ∧
    (resourceSendgridTemplateVersionExists downClient syncedData ⟨(), []⟩).1
      ≠ (false, some "500 Internal Server Error") ∧
    (resourceSendgridTemplateVersionExists downClient syncedData ⟨(), []⟩).1
      = (false, some "error checking template_version: 500 Internal Server Error") :=
  ⟨rfl, by decide, by decide, by decide⟩

/-- C2 (amended): when `GetTemplateVersion` fails with an error whose text
contains "404 Not Found", exists returns `(false, nil)`; when it fails with
any other error `err`, exists returns false together with a new error whose
text is "error checking template_version: " followed by the text of `err`;
when `GetTemplateVersion` succeeds, exists returns `(true, nil)`. -/
theorem exists_spec {σ : Type} (client : Client σ) (d : ResourceData) (r : Remote σ) :
    (∀ err, (client.GetTemplateVersion d.template_id d.id r.store).1 = .error err →
      stringsContains err "404 Not Found" = true →
      (resourceSendgridTemplateVersionExists client d r).1 = (false, none)) ∧
    (∀ err, (client.GetTemplateVersion d.template_id d.id r.store).1 = .error err →
      stringsContains err "404 Not Found" = false →
      (resourceSendgridTemplateVersionExists client d r).1
        = (false, some ("error checking template_version: " ++ err))) ∧
    (∀ m, (client.GetTemplateVersion d.template_id d.id r.store).1 = .ok m →
      (resourceSendgridTemplateVersionExists client d r).1 = (true, none)) := by
  refine ⟨?_, ?_, ?_⟩
  · intro err h hc
    simp [resourceSendgridTemplateVersionExists, callGet, h, hc]
  · intro err h hc
    simp [resourceSendgridTemplateVersionExists, callGet, h, hc]
  · intro m h
    simp [resourceSendgridTemplateVersionExists, callGet, h]

/-- Witness of C2 (amended): an empty store answers 404, an unavailable store
answers 500, and a store holding the version answers with it. -/
theorem exists_spec_witness :
    ((listClient.GetTemplateVersion syncedData.template_id syncedData.id []).1
        = .error "sendgrid: 404 Not Found" ∧
      stringsContains "sendgrid: 404 Not Found" "404 Not Found" = true ∧
      (resourceSendgridTemplateVersionExists listClient syncedData ⟨[], []⟩).1
        = (false, none)) ∧
    ((downClient.GetTemplateVersion syncedData.template_id syncedData.id ()).1
        = .error "500 Internal Server Error" ∧
      stringsContains "500 Internal Server Error" "404 Not Found" = false ∧
      (resourceSendgridTemplateVersionExists downClient syncedData ⟨(), []⟩).1
        = (false, some ("error checking template_version: " ++ "500 Internal Server Error"))) ∧
    ((listClient.GetTemplateVersion syncedData.template_id syncedData.id [storedVersion]).1
        = .ok storedVersion ∧
      (resourceSendgridTemplateVersionExists listClient syncedData ⟨[storedVersion], []⟩).1
        = (true, none)) :=
  ⟨⟨rfl, by decide,
    (exists_spec listClient syncedData ⟨[], []⟩).1 _ rfl (by decide)⟩,
   ⟨rfl, by decide,
    (exists_spec downClient syncedData ⟨(), []⟩).2.1 _ rfl (by decide)⟩,
   ⟨rfl, (exists_spec listClient syncedData ⟨[storedVersion], []⟩).2.2 _ rfl⟩⟩

/-- C3: for every configuration whose two content files are readable and
every template version `m'` returned by a successful `CreateTemplateVersion`
of the built object, create returns no error and leaves the resource id equal
to `m'.Id`, `html_content_hash` equal to `getHash m'.HtmlContent` and
`plain_content_hash` equal to `getHash m'.PlainContent`: the digests of the
content echoed back by the remote store, not of the local file content. -/
theorem create_stores_remote_digests {σ : Type} (fs : FileSystem) (client : Client σ)
    (d : ResourceData) (r : Remote σ) (html plain : String) (m' : TemplateVersion)
    (hh : loadFileContent fs d.html_content_file = .ok html)
    (hp : loadFileContent fs d.plain_content_file = .ok plain)
    (hc : (client.CreateTemplateVersion
            ⟨"", d.template_id, d.name, d.subject, html, plain, if d.active then 1 else 0⟩
            r.store).1 = .ok m') :
    (resourceSendgridTemplateVersionCreate fs client d r).1 = none ∧
    (resourceSendgridTemplateVersionCreate fs client d r).2.1.id = m'.Id ∧
    (resourceSendgridTemplateVersionCreate fs client d r).2.1.html_content_hash
      = getHash m'.HtmlContent ∧
    (resourceSendgridTemplateVersionCreate fs client d r).2.1.plain_content_hash
      = getHash m'.PlainContent := by
  simp [resourceSendgridTemplateVersionCreate, buildTemplateVersionStruct, callCreate, hh, hp, hc]

/-- Witness of C3 on a store that appends a newline to the html content: the
stored html digest is that of "Hello\n", not that of the local "Hello". -/
theorem create_stores_remote_digests_witness :
    (loadFileContent (twoFiles "Hello" "Hello") freshData.html_content_file = .ok "Hello" ∧
     loadFileContent (twoFiles "Hello" "Hello") freshData.plain_content_file = .ok "Hello" ∧
     (listClient.CreateTemplateVersion
        ⟨"", freshData.template_id, freshData.name, freshData.subject, "Hello", "Hello",
          if freshData.active then 1 else 0⟩ []).1
       = .ok ⟨"v1", "t1", "welcome", "Hi", "Hello\n", "Hello", 1⟩) ∧
    ((resourceSendgridTemplateVersionCreate (twoFiles "Hello" "Hello") listClient freshData
        ⟨[], []⟩).1 = none ∧
     (resourceSendgridTemplateVersionCreate (twoFiles "Hello" "Hello") listClient freshData
        ⟨[], []⟩).2.1.id = "v1" ∧
     (resourceSendgridTemplateVersionCreate (twoFiles "Hello" "Hello") listClient freshData
        ⟨[], []⟩).2.1.html_content_hash = getHash "Hello\n" ∧
     (resourceSendgridTemplateVersionCreate (twoFiles "Hello" "Hello") listClient freshData
        ⟨[], []⟩).2.1.plain_content_hash = getHash "Hello") ∧
    getHash "Hello\n" ≠ getHash "Hello" :=
  ⟨⟨rfl, rfl, rfl⟩,
   create_stores_remote_digests (twoFiles "Hello" "Hello") listClient freshData ⟨[], []⟩
     "Hello" "Hello" ⟨"v1", "t1", "welcome", "Hi", "Hello\n", "Hello", 1⟩ rfl rfl rfl,
   by decide⟩

/-- C4: for every state in which the html content file or the plain content
file does not exist on disk (or its path cannot be expanded), read returns an
error, makes no call on the remote store (the call log and the store are as
before, so no `GetTemplateVersion` was made) and leaves the resource data, in
particular `html_content_hash` and `plain_content_hash`, unchanged. -/
theorem read_missing_file_fails_before_remote {σ : Type} (fs : FileSystem) (client : Client σ)
    (d : ResourceData) (r : Remote σ)
    (h : existsFileContent fs d.html_content_file ≠ none ∨
      existsFileContent fs d.plain_content_file ≠ none) :
    (∃ err, (resourceSendgridTemplateVersionRead fs client d r).1 = some err) ∧
    (resourceSendgridTemplateVersionRead fs client d r).2.2.calls = r.calls ∧
    (resourceSendgridTemplateVersionRead fs client d r).2.2.store = r.store ∧
    (resourceSendgridTemplateVersionRead fs client d r).2.1 = d ∧
    (resourceSendgridTemplateVersionRead fs client d r).2.1.html_content_hash
      = d.html_content_hash ∧
    (resourceSendgridTemplateVersionRead fs client d r).2.1.plain_content_hash
      = d.plain_content_hash := by
  cases hh : existsFileContent fs d.html_content_file with
  | some e => simp [resourceSendgridTemplateVersionRead, hh]
  | none =>
    cases hp : existsFileContent fs d.plain_content_file with
    | some e => simp [resourceSendgridTemplateVersionRead, hh, hp]
    | none => simp [hh, hp] at h

/-- Witness of C4: the html file `gone.txt` is not on disk. -/
theorem read_missing_file_fails_before_remote_witness :
    (existsFileContent (twoFiles "Hello" "Hello") missingHtmlData.html_content_file ≠ none ∨
      existsFileContent (twoFiles "Hello" "Hello") missingHtmlData.plain_content_file ≠ none) ∧
    ((∃ err, (resourceSendgridTemplateVersionRead (twoFiles "Hello" "Hello") listClient
        missingHtmlData ⟨[storedVersion], []⟩).1 = some err) ∧
     (resourceSendgridTemplateVersionRead (twoFiles "Hello" "Hello") listClient
        missingHtmlData ⟨[storedVersion], []⟩).2.2.calls = [] ∧
     (resourceSendgridTemplateVersionRead (twoFiles "Hello" "Hello") listClient
        missingHtmlData ⟨[storedVersion], []⟩).2.2.store = [storedVersion] ∧
     (resourceSendgridTemplateVersionRead (twoFiles "Hello" "Hello") listClient
        missingHtmlData ⟨[storedVersion], []⟩).2.1 = missingHtmlData ∧
     (resourceSendgridTemplateVersionRead (twoFiles "Hello" "Hello") listClient
        missingHtmlData ⟨[storedVersion], []⟩).2.1.html_content_hash
       = missingHtmlData.html_content_hash ∧
     (resourceSendgridTemplateVersionRead (twoFiles "Hello" "Hello") listClient
        missingHtmlData ⟨[storedVersion], []⟩).2.1.plain_content_hash
       = missingHtmlData.plain_content_hash) :=
  ⟨Or.inl (by decide),
   read_missing_file_fails_before_remote (twoFiles "Hello" "Hello") listClient
     missingHtmlData ⟨[storedVersion], []⟩ (Or.inl (by decide))⟩

/-- C5: for every state, when the remote `DeleteTemplateVersion` call
succeeds, delete returns no error and afterwards both `html_content_hash` and
`plain_content_hash` are the empty string; when the remote call fails, delete
returns an error and both stored digests are unchanged. -/
theorem delete_clears_digests {σ : Type} (client : Client σ) (d : ResourceData)
    (r : Remote σ) :
    ((client.DeleteTemplateVersion d.template_id d.id r.store).1 = none →
      (resourceSendgridTemplateVersionDelete client d r).1 = none ∧
      (resourceSendgridTemplateVersionDelete client d r).2.1.html_content_hash = "" ∧
      (resourceSendgridTemplateVersionDelete client d r).2.1.plain_content_hash = "") ∧
    (∀ err, (client.DeleteTemplateVersion d.template_id d.id r.store).1 = some err →
      (resourceSendgridTemplateVersionDelete client d r).1
        = some ("error deleting TemplateVersion: " ++ err) ∧
      (resourceSendgridTemplateVersionDelete client d r).2.1.html_content_hash
        = d.html_content_hash ∧
      (resourceSendgridTemplateVersionDelete client d r).2.1.plain_content_hash
        = d.plain_content_hash) := by
  constructor
  · intro h
    simp [resourceSendgridTemplateVersionDelete, callDelete, h]
  · intro err h
    simp [resourceSendgridTemplateVersionDelete, callDelete, h]

/-- Witness of C5: a store holding the version deletes it, an unavailable
store fails. -/
theorem delete_clears_digests_witness :
    ((listClient.DeleteTemplateVersion syncedData.template_id syncedData.id
        [storedVersion]).1 = none ∧
      (resourceSendgridTemplateVersionDelete listClient syncedData
        ⟨[storedVersion], []⟩).1 = none ∧
      (resourceSendgridTemplateVersionDelete listClient syncedData
        ⟨[storedVersion], []⟩).2.1.html_content_hash = "" ∧
      (resourceSendgridTemplateVersionDelete listClient syncedData
        ⟨[storedVersion], []⟩).2.1.plain_content_hash = "") ∧
    ((downClient.DeleteTemplateVersion syncedData.template_id syncedData.id ()).1
        = some "500 Internal Server Error" ∧
      (resourceSendgridTemplateVersionDelete downClient syncedData ⟨(), []⟩).1
        = some ("error deleting TemplateVersion: " ++ "500 Internal Server Error") ∧
      (resourceSendgridTemplateVersionDelete downClient syncedData ⟨(), []⟩).2.1.html_content_hash
        = syncedData.html_content_hash ∧
      (resourceSendgridTemplateVersionDelete downClient syncedData ⟨(), []⟩).2.1.plain_content_hash
        = syncedData.plain_content_hash) :=
  ⟨⟨by decide, (delete_clears_digests listClient syncedData ⟨[storedVersion], []⟩).1 (by decide)⟩,
   ⟨rfl, (delete_clears_digests downClient syncedData ⟨(), []⟩).2 _ rfl⟩⟩

/-- C6 as stated fails: it is not the case that for every pair of different
file contents `A` and `B`, with stored digest `getHash A` and the local file
holding `B`, the `DiffSuppressFunc` returns false.  The digest has finitely
many values, so two different contents share one, and for them the function
returns true. -/
theorem edit_does_not_always_force_plan :
    ¬ ∀ (fs : FileSystem) (k new : String) (d : ResourceData) (A B : String),
      A ≠ B → loadFileContent fs d.html_content_file = .ok B →
      htmlContentHashDiffSuppressFunc fs k (getHash A) new d = .ok false := by
  intro hall
  obtain ⟨A, B, hne, heq⟩ := getHash_collision
  have hload : loadFileContent (twoFiles B B) freshData.html_content_file = .ok B := rfl
  have h1 := hall (twoFiles B B) "html_content_hash" "" freshData A B hne hload
  rw [htmlDiffSuppress_of_load _ _ _ _ _ B hload] at h1
  simp [heq] at h1

/-- C6 (amended): for every pair of file contents `A` and `B` whose digests
differ, when the stored digest is `getHash A` and the local file now holds
`B`, the `DiffSuppressFunc` of either field returns false. -/
theorem edit_with_new_digest_forces_plan (fs : FileSystem) (k new : String)
    (d : ResourceData) (A B : String) (hd : getHash A ≠ getHash B) :
    (loadFileContent fs d.html_content_file = .ok B →
      htmlContentHashDiffSuppressFunc fs k (getHash A) new d = .ok false) ∧
    (loadFileContent fs d.plain_content_file = .ok B →
      plainContentHashDiffSuppressFunc fs k (getHash A) new d = .ok false) := by
  constructor
  · intro h
    rw [htmlDiffSuppress_of_load fs k _ new d B h]
    simp [hd]
  · intro h
    rw [plainDiffSuppress_of_load fs k _ new d B h]
    simp [hd]

/-- Witness of C6 (amended): the scenario of the spec, stored digest of
"Hello" and `html.txt` edited to "Hello!". -/
theorem edit_with_new_digest_forces_plan_witness :
    getHash "Hello" ≠ getHash "Hello!" ∧
    loadFileContent (twoFiles "Hello!" "Hello") syncedData.html_content_file = .ok "Hello!" ∧
    htmlContentHashDiffSuppressFunc (twoFiles "Hello!" "Hello") "html_content_hash"
      (getHash "Hello") "" syncedData = .ok false :=
  ⟨by decide, rfl,
   (edit_with_new_digest_forces_plan (twoFiles "Hello!" "Hello") "html_content_hash" ""
      syncedData "Hello" "Hello!" (by decide)).1 rfl⟩

/-- C7: for every remote store and every resource state whose two local
content files exist, if import succeeds and read is then run while
`GetTemplateVersion` still answers as it did for import (the remote object is
unchanged), then read succeeds and the pair of digests after read equals the
pair after import, both being the digests of the html and plain content of
the remote object. -/
theorem import_then_read_same_digests {σ : Type} (fs : FileSystem) (client : Client σ)
    (d : ResourceData) (r : Remote σ)
    (hh : existsFileContent fs d.html_content_file = none)
    (hp : existsFileContent fs d.plain_content_file = none)
    (himp : (resourceSendgridTemplateVersionImport client d r).1.2 = none)
    (hsame :
      (client.GetTemplateVersion d.template_id d.id
        (resourceSendgridTemplateVersionImport client d r).2.2.store).1
      = (client.GetTemplateVersion d.template_id d.id r.store).1) :
    ∃ m, (client.GetTemplateVersion d.template_id d.id r.store).1 = .ok m ∧
      (resourceSendgridTemplateVersionRead fs client
        (resourceSendgridTemplateVersionImport client d r).2.1
        (resourceSendgridTemplateVersionImport client d r).2.2).1 = none ∧
      ((resourceSendgridTemplateVersionRead fs client
          (resourceSendgridTemplateVersionImport client d r).2.1
          (resourceSendgridTemplateVersionImport client d r).2.2).2.1.html_content_hash,
       (resourceSendgridTemplateVersionRead fs client
          (resourceSendgridTemplateVersionImport client d r).2.1
          (resourceSendgridTemplateVersionImport client d r).2.2).2.1.plain_content_hash)
        = ((resourceSendgridTemplateVersionImport client d r).2.1.html_content_hash,
           (resourceSendgridTemplateVersionImport client d r).2.1.plain_content_hash) ∧
      ((resourceSendgridTemplateVersionImport client d r).2.1.html_content_hash,
       (resourceSendgridTemplateVersionImport client d r).2.1.plain_content_hash)
        = (getHash m.HtmlContent, getHash m.PlainContent) := by
  cases hg : (client.GetTemplateVersion d.template_id d.id r.store).1 with
  | error e =>
    simp [resourceSendgridTemplateVersionImport, callGet, hg] at himp
  | ok m =>
    have hi : resourceSendgridTemplateVersionImport client d r
        = (([{ d with html_content_hash := getHash m.HtmlContent
                      plain_content_hash := getHash m.PlainContent }], none),
           { d with html_content_hash := getHash m.HtmlContent
                    plain_content_hash := getHash m.PlainContent },
           (callGet client d.template_id d.id r).2) := by
      simp [resourceSendgridTemplateVersionImport, callGet, hg]
    rw [hi] at hsame ⊢
    have hg2 : (client.GetTemplateVersion d.template_id d.id
        (client.GetTemplateVersion d.template_id d.id r.store).2).1 = .ok m := by
      simpa [callGet, hg] using hsame
    refine ⟨m, rfl, ?_⟩
    simp [resourceSendgridTemplateVersionRead, callGet, hh, hp, hg2]

/-- Witness of C7: importing the version `v1` held by the store. -/
theorem import_then_read_same_digests_witness :
    (existsFileContent (twoFiles "Hello" "Hello") unsyncedData.html_content_file = none ∧
     existsFileContent (twoFiles "Hello" "Hello") unsyncedData.plain_content_file = none ∧
     (resourceSendgridTemplateVersionImport listClient unsyncedData
        ⟨[storedVersion], []⟩).1.2 = none ∧
     (listClient.GetTemplateVersion unsyncedData.template_id unsyncedData.id
        (resourceSendgridTemplateVersionImport listClient unsyncedData
          ⟨[storedVersion], []⟩).2.2.store).1
      = (listClient.GetTemplateVersion unsyncedData.template_id unsyncedData.id
          [storedVersion]).1) ∧
    ∃ m, (listClient.GetTemplateVersion unsyncedData.template_id unsyncedData.id
        [storedVersion]).1 = .ok m ∧
      (resourceSendgridTemplateVersionRead (twoFiles "Hello" "Hello") listClient
        (resourceSendgridTemplateVersionImport listClient unsyncedData
          ⟨[storedVersion], []⟩).2.1
        (resourceSendgridTemplateVersionImport listClient unsyncedData
          ⟨[storedVersion], []⟩).2.2).1 = none ∧
      ((resourceSendgridTemplateVersionRead (twoFiles "Hello" "Hello") listClient
          (resourceSendgridTemplateVersionImport listClient unsyncedData
            ⟨[storedVersion], []⟩).2.1
          (resourceSendgridTemplateVersionImport listClient unsyncedData
            ⟨[storedVersion], []⟩).2.2).2.1.html_content_hash,
       (resourceSendgridTemplateVersionRead (twoFiles "Hello" "Hello") listClient
          (resourceSendgridTemplateVersionImport listClient unsyncedData
            ⟨[storedVersion], []⟩).2.1
          (resourceSendgridTemplateVersionImport listClient unsyncedData
            ⟨[storedVersion], []⟩).2.2).2.1.plain_content_hash)
        = ((resourceSendgridTemplateVersionImport listClient unsyncedData
              ⟨[storedVersion], []⟩).2.1.html_content_hash,
           (resourceSendgridTemplateVersionImport listClient unsyncedData
              ⟨[storedVersion], []⟩).2.1.plain_content_hash) ∧
      ((resourceSendgridTemplateVersionImport listClient unsyncedData
          ⟨[storedVersion], []⟩).2.1.html_content_hash,
       (resourceSendgridTemplateVersionImport listClient unsyncedData
          ⟨[storedVersion], []⟩).2.1.plain_content_hash)
        = (getHash m.HtmlContent, getHash m.PlainContent) :=
  ⟨⟨by decide, by decide, by decide, rfl⟩,
   import_then_read_same_digests (twoFiles "Hello" "Hello") listClient unsyncedData
     ⟨[storedVersion], []⟩ (by decide) (by decide) (by decide) rfl⟩

/-- C9: for every configuration whose content files are readable (holding
`html` and `plain`) and for which the remote `UpdateTemplateVersion` of the
built object `m` succeeds, the outcome of update (error, resource data and
remote store) is the outcome of read run on the state whose
`html_content_hash` and `plain_content_hash` were set to `getHash html` and
`getHash plain`; hence when that read succeeds the final digests are those of
the content returned by `GetTemplateVersion`, and when it fails the digests
are those of the submitted content and the error of read is returned.  If
loading a file or the remote update fails, update returns an error and the
stored digests are unchanged. -/
theorem update_is_read_after_submitted_digests {σ : Type} (fs : FileSystem)
    (client : Client σ) (d : ResourceData) (r : Remote σ) :
    (∀ html plain m,
      loadFileContent fs d.html_content_file = .ok html →
      loadFileContent fs d.plain_content_file = .ok plain →
      buildTemplateVersionStruct fs d = .ok m →
      (client.UpdateTemplateVersion d.id m r.store).1 = none →
      resourceSendgridTemplateVersionUpdate fs client d r
        = resourceSendgridTemplateVersionRead fs client
            { d with html_content_hash := getHash html
                     plain_content_hash := getHash plain }
            (callUpdate client d.id m r).2 ∧
      ((resourceSendgridTemplateVersionUpdate fs client d r).1 = none →
        ∃ mr, (client.GetTemplateVersion d.template_id d.id
                (client.UpdateTemplateVersion d.id m r.store).2).1 = .ok mr ∧
          (resourceSendgridTemplateVersionUpdate fs client d r).2.1.html_content_hash
            = getHash mr.HtmlContent ∧
          (resourceSendgridTemplateVersionUpdate fs client d r).2.1.plain_content_hash
            = getHash mr.PlainContent) ∧
      (∀ e, (resourceSendgridTemplateVersionRead fs client
            { d with html_content_hash := getHash html
                     plain_content_hash := getHash plain }
            (callUpdate client d.id m r).2).1 = some e →
        (resourceSendgridTemplateVersionUpdate fs client d r).1 = some e ∧
        (resourceSendgridTemplateVersionUpdate fs client d r).2.1.html_content_hash
          = getHash html ∧
        (resourceSendgridTemplateVersionUpdate fs client d r).2.1.plain_content_hash
          = getHash plain)) ∧
    (∀ err, loadFileContent fs d.html_content_file = .error err ∨
        ((∃ html, loadFileContent fs d.html_content_file = .ok html) ∧
          loadFileContent fs d.plain_content_file = .error err) →
      (resourceSendgridTemplateVersionUpdate fs client d r).1 = some err ∧
      (resourceSendgridTemplateVersionUpdate fs client d r).2.1.html_content_hash
        = d.html_content_hash ∧
      (resourceSendgridTemplateVersionUpdate fs client d r).2.1.plain_content_hash
        = d.plain_content_hash) ∧
    (∀ m err, buildTemplateVersionStruct fs d = .ok m →
      (client.UpdateTemplateVersion d.id m r.store).1 = some err →
      (resourceSendgridTemplateVersionUpdate fs client d r).1
        = some ("error updating TemplateVersion: " ++ err) ∧
      (resourceSendgridTemplateVersionUpdate fs client d r).2.1.html_content_hash
        = d.html_content_hash ∧
      (resourceSendgridTemplateVersionUpdate fs client d r).2.1.plain_content_hash
        = d.plain_content_hash) := by
  refine ⟨?_, ?_, ?_⟩
  · intro html plain m hh hp hm hu
    have hmh : m.HtmlContent = html := by
      simp only [buildTemplateVersionStruct, hh, hp, Except.ok.injEq] at hm
      rw [← hm]
    have hmp : m.PlainContent = plain := by
      simp only [buildTemplateVersionStruct, hh, hp, Except.ok.injEq] at hm
      rw [← hm]
    have hupd : resourceSendgridTemplateVersionUpdate fs client d r
        = resourceSendgridTemplateVersionRead fs client
            { d with html_content_hash := getHash html
                     plain_content_hash := getHash plain }
            (callUpdate client d.id m r).2 := by
      simp [resourceSendgridTemplateVersionUpdate, hm, callUpdate, hu, hmh, hmp]
    refine ⟨hupd, ?_, ?_⟩
    · rw [hupd]
      intro hnone
      cases he1 : existsFileContent fs d.html_content_file with
      | some e => simp [resourceSendgridTemplateVersionRead, he1] at hnone
      | none =>
        cases he2 : existsFileContent fs d.plain_content_file with
        | some e => simp [resourceSendgridTemplateVersionRead, he1, he2] at hnone
        | none =>
          cases hg : (client.GetTemplateVersion d.template_id d.id
              (client.UpdateTemplateVersion d.id m r.store).2).1 with
          | error e =>
            simp [resourceSendgridTemplateVersionRead, he1, he2, callGet, callUpdate, hg]
              at hnone
          | ok mr =>
            refine ⟨mr, rfl, ?_⟩
            simp [resourceSendgridTemplateVersionRead, he1, he2, callGet, callUpdate, hg]
    · intro e he
      rw [hupd]
      refine ⟨he, ?_⟩
      cases he1 : existsFileContent fs d.html_content_file with
      | some e1 => simp [resourceSendgridTemplateVersionRead, he1]
      | none =>
        cases he2 : existsFileContent fs d.plain_content_file with
        | some e2 => simp [resourceSendgridTemplateVersionRead, he1, he2]
        | none =>
          cases hg : (client.GetTemplateVersion d.template_id d.id
              (client.UpdateTemplateVersion d.id m r.store).2).1 with
          | error e3 =>
            simp [resourceSendgridTemplateVersionRead, he1, he2, callGet, callUpdate, hg]
          | ok mr =>
            simp [resourceSendgridTemplateVersionRead, he1, he2, callGet, callUpdate, hg]
              at he
  · intro err h
    rcases h with h | ⟨⟨html, hh⟩, hp⟩
    · simp [resourceSendgridTemplateVersionUpdate, buildTemplateVersionStruct, h]
    · simp [resourceSendgridTemplateVersionUpdate, buildTemplateVersionStruct, hh, hp]
  · intro m err hm hu
    simp [resourceSendgridTemplateVersionUpdate, hm, callUpdate, hu]

/-- Witness of C9: an update after editing `html.txt` to "Hello!" on a store
holding the version; an update with the html file missing; an update on an
unavailable store. -/
theorem update_is_read_after_submitted_digests_witness :
    ((loadFileContent (twoFiles "Hello!" "Hello") syncedData.html_content_file = .ok "Hello!" ∧
      loadFileContent (twoFiles "Hello!" "Hello") syncedData.plain_content_file = .ok "Hello" ∧
      buildTemplateVersionStruct (twoFiles "Hello!" "Hello") syncedData = .ok editedVersion ∧
      (listClient.UpdateTemplateVersion syncedData.id editedVersion [storedVersion]).1 = none) ∧
     resourceSendgridTemplateVersionUpdate (twoFiles "Hello!" "Hello") listClient syncedData
        ⟨[storedVersion], []⟩
      = resourceSendgridTemplateVersionRead (twoFiles "Hello!" "Hello") listClient
          { syncedData with html_content_hash := getHash "Hello!"
                            plain_content_hash := getHash "Hello" }
          (callUpdate listClient syncedData.id editedVersion ⟨[storedVersion], []⟩).2 ∧
     (resourceSendgridTemplateVersionUpdate (twoFiles "Hello!" "Hello") listClient syncedData
        ⟨[storedVersion], []⟩).1 = none ∧
     ∃ mr, (listClient.GetTemplateVersion syncedData.template_id syncedData.id
              (listClient.UpdateTemplateVersion syncedData.id editedVersion
                [storedVersion]).2).1 = .ok mr ∧
        (resourceSendgridTemplateVersionUpdate (twoFiles "Hello!" "Hello") listClient syncedData
          ⟨[storedVersion], []⟩).2.1.html_content_hash = getHash mr.HtmlContent ∧
        (resourceSendgridTemplateVersionUpdate (twoFiles "Hello!" "Hello") listClient syncedData
          ⟨[storedVersion], []⟩).2.1.plain_content_hash = getHash mr.PlainContent) ∧
    (loadFileContent (twoFiles "Hello!" "Hello") missingHtmlData.html_content_file
        = .error "open gone.txt: no such file or directory" ∧
     (resourceSendgridTemplateVersionUpdate (twoFiles "Hello!" "Hello") listClient
        missingHtmlData ⟨[storedVersion], []⟩).1
        = some "open gone.txt: no such file or directory" ∧
     (resourceSendgridTemplateVersionUpdate (twoFiles "Hello!" "Hello") listClient
        missingHtmlData ⟨[storedVersion], []⟩).2.1.html_content_hash
        = missingHtmlData.html_content_hash ∧
     (resourceSendgridTemplateVersionUpdate (twoFiles "Hello!" "Hello") listClient
        missingHtmlData ⟨[storedVersion], []⟩).2.1.plain_content_hash
        = missingHtmlData.plain_content_hash) ∧
    (buildTemplateVersionStruct (twoFiles "Hello!" "Hello") syncedData = .ok editedVersion ∧
     (downClient.UpdateTemplateVersion syncedData.id editedVersion ()).1
        = some "500 Internal Server Error" ∧
     (resourceSendgridTemplateVersionUpdate (twoFiles "Hello!" "Hello") downClient syncedData
        ⟨(), []⟩).1 = some ("error updating TemplateVersion: " ++ "500 Internal Server Error") ∧
     (resourceSendgridTemplateVersionUpdate (twoFiles "Hello!" "Hello") downClient syncedData
        ⟨(), []⟩).2.1.html_content_hash = syncedData.html_content_hash ∧
     (resourceSendgridTemplateVersionUpdate (twoFiles "Hello!" "Hello") downClient syncedData
        ⟨(), []⟩).2.1.plain_content_hash = syncedData.plain_content_hash) :=
  ⟨⟨⟨rfl, rfl, rfl, by decide⟩,
    ((update_is_read_after_submitted_digests (twoFiles "Hello!" "Hello") listClient syncedData
        ⟨[storedVersion], []⟩).1 "Hello!" "Hello" editedVersion rfl rfl rfl (by decide)).1,
    by decide,
    ((update_is_read_after_submitted_digests (twoFiles "Hello!" "Hello") listClient syncedData
        ⟨[storedVersion], []⟩).1 "Hello!" "Hello" editedVersion rfl rfl rfl (by decide)).2.1
      (by decide)⟩,
   ⟨rfl,
    (update_is_read_after_submitted_digests (twoFiles "Hello!" "Hello") listClient
        missingHtmlData ⟨[storedVersion], []⟩).2.1 _ (Or.inl rfl)⟩,
   ⟨rfl, rfl,
    (update_is_read_after_submitted_digests (twoFiles "Hello!" "Hello") downClient syncedData
        ⟨(), []⟩).2.2 editedVersion _ rfl rfl⟩⟩

end Sendgrid
